import Mathlib

/-!
Verification of the Docker API abstraction and context-switching layer of the
vscode-docker repository. The definitions below are shallow embeddings of the
TypeScript sources: JavaScript strings are modelled as Lean strings (operated
on through their character lists so everything is executable), records are
modelled as Lean structures, promise-returning fallible operations are
modelled with Except, and the stateful context manager is modelled by
explicit state passing.
-/

deriving instance DecidableEq for Except

namespace VsDocker

/-! ## String helpers (models of the JavaScript string operations used) -/

/-- Model of the JavaScript expression name.substr(1): drop the first
character of the string, whatever it is. -/
def jsSubstrFrom1 (s : String) : String :=
  String.mk (s.data.drop 1)

/-- Decides whether the character list seg occurs as a contiguous segment of
the character list l. Used to formalise the phrase "the message carries the
operation name". -/
def containsSeg (l seg : List Char) : Bool :=
  if seg.isPrefixOf l then true
  else
    match l with
    | [] => seg.isEmpty
    | _ :: t => containsSeg t seg

/-- Decides whether the string pat occurs as a substring of msg. -/
def mentionsText (msg pat : String) : Bool :=
  containsSeg msg.data pat.data

/-! ## Translation rules of the local engine client
(src/src/docker/DockerodeApiClient/DockerodeUtils.ts) -/

/-- Sentinel group name for containers without a compose label, from
src/unnamed/part_002 (NonComposeGroupName); localize returns its default
string here. -/
def NonComposeGroupName : String := "Other Containers"

/-- Label key used for compose project grouping. -/
def composeProjectKey : String := "com.docker.compose.project"

/-- Embedding of getComposeProjectName (DockerodeUtils.ts, lines 9 to 19).
The JavaScript builds a label/value pair list from Object.keys of the Labels
object (keys of a JavaScript object are unique and ordered) and returns the
value of the entry whose label equals the compose project key, or the
sentinel group name when there is none. Labels objects are modelled as
association lists with unique keys. -/
def getComposeProjectName (labels : List (String × String)) : String :=
  match labels.find? (fun l => l.1 == composeProjectKey) with
  | some l => l.2
  | none => NonComposeGroupName

/-- Embedding of getContainerName (DockerodeUtils.ts, lines 36 to 43):
strip the first character of every alias (name.substr(1)), pick the first
stripped alias containing no slash, and fall back to the first stripped
alias. On an empty alias list the JavaScript expression names[0] is
undefined; that case is modelled by the empty string and is outside every
claim, which all assume a non-empty alias list. -/
def getContainerName (names : List String) : String :=
  let stripped := names.map jsSubstrFrom1
  match stripped.find? (fun n => !(n.data.contains '/')) with
  | some canonicalName => canonicalName
  | none => stripped.headD ""

/-- Spec-side helper for name canonicalization, written from the words of
the spec (to be compared with getContainerName): strip the leading path
separator of an alias, leaving an alias without one unchanged. -/
def stripLeadingSep (n : String) : String :=
  match n.data with
  | c :: rest => if c = '/' then String.mk rest else n
  | [] => n

/-- Spec-side canonical name continued: first alias, stripped of its
leading separator, without a separator inside; else the first alias. -/
def specCanonicalName (names : List String) : String :=
  let stripped := names.map stripLeadingSep
  match stripped.find? (fun n => !(n.data.contains '/')) with
  | some c => c
  | none => stripped.headD ""

/-! ## Timestamp model -/

/-- Leap year predicate of the Gregorian calendar. -/
def isLeapYear (y : Nat) : Bool :=
  y % 4 == 0 && (y % 100 != 0 || y % 400 == 0)

/-- Number of days in the given year. -/
def daysInYear (y : Nat) : Nat :=
  if isLeapYear y then 366 else 365

/-- Cumulative number of days in the months strictly before month m
(1-based) of a year with the given leap flag. -/
def daysBeforeMonth (leap : Bool) (m : Nat) : Nat :=
  let feb := if leap then 29 else 28
  match m with
  | 1 => 0
  | 2 => 31
  | 3 => 31 + feb
  | 4 => 31 + feb + 31
  | 5 => 31 + feb + 31 + 30
  | 6 => 31 + feb + 31 + 30 + 31
  | 7 => 31 + feb + 31 + 30 + 31 + 30
  | 8 => 31 + feb + 31 + 30 + 31 + 30 + 31
  | 9 => 31 + feb + 31 + 30 + 31 + 30 + 31 + 31
  | 10 => 31 + feb + 31 + 30 + 31 + 30 + 31 + 31 + 30
  | 11 => 31 + feb + 31 + 30 + 31 + 30 + 31 + 31 + 30 + 31
  | 12 => 31 + feb + 31 + 30 + 31 + 30 + 31 + 31 + 30 + 31 + 30
  | _ => 0

/-- Days from 1970-01-01 to the given civil date (year at least 1970). -/
def daysSinceEpoch (y m d : Nat) : Nat :=
  (List.range (y - 1970)).foldl (fun acc i => acc + daysInYear (1970 + i)) 0
    + daysBeforeMonth (isLeapYear y) m + (d - 1)

/-- Splits a character list on a separator character; the separator is not
kept. Models the field splitting done when reading an ISO-8601 date. -/
def splitOnChar (c : Char) : List Char → List (List Char)
  | [] => [[]]
  | x :: xs =>
    let r := splitOnChar c xs
    if x = c then [] :: r
    else
      match r with
      | [] => [[x]]
      | h :: t => (x :: h) :: t

/-- Parses a non-empty list of decimal digits into a number. -/
def parseDigits (l : List Char) : Option Nat :=
  if l.isEmpty then none
  else l.foldl (fun acc c =>
    match acc with
    | none => none
    | some n => if c.isDigit then some (n * 10 + (c.toNat - 48)) else none)
    (some 0)

/-- Parses an ISO-8601 UTC timestamp of the shape
YYYY-MM-DDTHH:MM:SS.mmmZ (the fractional part optional) into epoch
milliseconds. This models the JavaScript expression
new Date(isoString).valueOf() on such strings, which the ECMAScript
standard defines as the corresponding millisecond offset from the Unix
epoch. -/
def parseIsoUtcMs (s : String) : Option Nat :=
  match splitOnChar 'T' s.data with
  | [datePart, timePart] =>
    match splitOnChar '-' datePart with
    | [ys, ms, ds] =>
      match timePart.dropLast, timePart.getLast? with
      | timeBody, some 'Z' =>
        match splitOnChar ':' timeBody with
        | [hs, mins, secPart] =>
          let (ss, mss) :=
            match splitOnChar '.' secPart with
            | [a, b] => (a, b)
            | [a] => (a, ['0', '0', '0'])
            | _ => ([], [])
          match parseDigits ys, parseDigits ms, parseDigits ds,
                parseDigits hs, parseDigits mins, parseDigits ss,
                parseDigits mss with
          | some y, some mo, some d, some h, some mi, some sec, some milli =>
            some ((((daysSinceEpoch y mo d * 24 + h) * 60 + mi) * 60 + sec)
              * 1000 + milli)
          | _, _, _, _, _, _, _ => none
        | _ => none
      | _, _ => none
    | _ => none
  | _ => none

/-- Model of new Date(s).valueOf() for the ISO-8601 UTC strings the engine
returns; a string outside that shape yields NaN in JavaScript, modelled
here by 0 and outside every claim. -/
def jsDateValueOf (s : String) : Nat :=
  (parseIsoUtcMs s).getD 0

/-! ## Local engine client translations (src/unnamed/part_004, class
DockerodeApiClient) -/

/-- Raw container record returned by dockerodeClient.listContainers, with the
fields the translation in getContainers reads. Created is in epoch seconds,
as the Docker engine list API reports it. -/
structure ContainerInfo where
  Id : String
  Names : List String
  Image : String
  ImageID : String
  Created : Nat
  State : String
  Status : String
  Labels : List (String × String)
  deriving DecidableEq, Repr

/-- Normalized container record produced by getContainers. -/
structure DockerContainerRec where
  Id : String
  Name : String
  Image : String
  ImageID : String
  CreatedTime : Nat
  State : String
  Status : String
  Labels : List (String × String)
  composeProjectName : String
  treeId : String
  deriving DecidableEq, Repr

/-- Embedding of the per-container translation inside
DockerodeApiClient.getContainers (src/unnamed/part_004, lines 37 to 50):
spread of the raw record plus composeProjectName, canonical Name,
CreatedTime scaled from epoch seconds to milliseconds, and the treeId
combining id and state. -/
def translateContainer (ci : ContainerInfo) : DockerContainerRec :=
  { Id := ci.Id
    Name := getContainerName ci.Names
    Image := ci.Image
    ImageID := ci.ImageID
    CreatedTime := ci.Created * 1000
    State := ci.State
    Status := ci.Status
    Labels := ci.Labels
    composeProjectName := getComposeProjectName ci.Labels
    treeId := ci.Id ++ ci.State }

/-- Raw network record returned by dockerodeClient.listNetworks; Created is
an ISO-8601 string, as the Docker engine network API reports it. -/
structure NetworkInfo where
  Id : String
  Name : String
  Created : String
  deriving DecidableEq, Repr

/-- Normalized network record produced by getNetworks. -/
structure DockerNetworkRec where
  Id : String
  Name : String
  CreatedTime : Nat
  treeId : String
  deriving DecidableEq, Repr

/-- Embedding of the per-network translation inside
DockerodeApiClient.getNetworks (src/unnamed/part_004, lines 164 to 176):
spread of the raw record plus CreatedTime from new Date(ni.Created).valueOf()
and treeId equal to the id. -/
def translateNetwork (ni : NetworkInfo) : DockerNetworkRec :=
  { Id := ni.Id
    Name := ni.Name
    CreatedTime := jsDateValueOf ni.Created
    treeId := ni.Id }

/-! ## Prune results (src/src/docker/DockerodeApiClient/DockerodeApiClient.ts) -/

/-- Prune result shape from src/unnamed/part_001 (interface PruneResult). -/
structure PruneResult where
  objectsRemoved : Nat
  spaceFreed : Nat
  deriving DecidableEq, Repr

/-- Engine response to a container prune. -/
structure PruneContainersResponse where
  ContainersDeleted : List String
  SpaceReclaimed : Nat
  deriving DecidableEq, Repr

/-- Engine response to an image prune. -/
structure PruneImagesResponse where
  ImagesDeleted : List String
  SpaceReclaimed : Nat
  deriving DecidableEq, Repr

/-- Engine response to a network prune. The engine reports no reclaimed
space figure for networks; the field below models what the code reads. -/
structure PruneNetworksResponse where
  NetworksDeleted : List String
  SpaceReclaimed : Nat
  deriving DecidableEq, Repr

/-- Engine response to a volume prune. -/
structure PruneVolumesResponse where
  VolumesDeleted : List String
  SpaceReclaimed : Nat
  deriving DecidableEq, Repr

/-- Embedding of DockerodeApiClient.pruneContainers result translation:
objectsRemoved from ContainersDeleted.length, spaceFreed from
SpaceReclaimed. -/
def pruneContainersResult (r : PruneContainersResponse) : PruneResult :=
  { objectsRemoved := r.ContainersDeleted.length
    spaceFreed := r.SpaceReclaimed }

/-- Embedding of DockerodeApiClient.pruneImages result translation. -/
def pruneImagesResult (r : PruneImagesResponse) : PruneResult :=
  { objectsRemoved := r.ImagesDeleted.length
    spaceFreed := r.SpaceReclaimed }

/-- Embedding of DockerodeApiClient.pruneNetworks result translation
(src/src/docker/DockerodeApiClient/DockerodeApiClient.ts, lines 164 to 170):
objectsRemoved from NetworksDeleted.length and spaceFreed fixed to zero. -/
def pruneNetworksResult (r : PruneNetworksResponse) : PruneResult :=
  { objectsRemoved := r.NetworksDeleted.length
    spaceFreed := 0 }

/-- Embedding of DockerodeApiClient.pruneVolumes result translation. -/
def pruneVolumesResult (r : PruneVolumesResponse) : PruneResult :=
  { objectsRemoved := r.VolumesDeleted.length
    spaceFreed := r.SpaceReclaimed }

/-! ## Backend capability fault (src/unnamed/part_006, class
NotSupportedError) and the remote client (src/src/docker/DockerServeClient) -/

/-- Message of NotSupportedError: localize returns the default string
passed to it. -/
def notSupportedMessage : String :=
  "This action is not supported in the current Docker context."

/-- Embedding of class NotSupportedError (src/unnamed/part_006, lines 23 to
29): an Error subclass with a static ErrorType tag and a fixed localized
message. Its constructor takes no data, so the instance carries neither the
attempted operation name nor the backend family. -/
structure NotSupportedError where
  errorType : String
  message : String
  deriving DecidableEq, Repr

/-- The one value the NotSupportedError constructor can produce. -/
def mkNotSupportedError : NotSupportedError :=
  { errorType := "NotSupportedError", message := notSupportedMessage }

/-- Result type of the remote (serverless) client operations that the
Docker SDK does not support: they always throw, modelled by Except. -/
abbrev ServeCall (α : Type) := Except NotSupportedError α

/-- Opaque-to-this-layer inspection payload; never produced by the remote
client. -/
structure DockerContainerInspectionRec where
  Id : String
  deriving DecidableEq, Repr

namespace DockerServeClient

/-- Embedding of DockerServeClient.inspectContainer
(src/src/docker/DockerServeClient/DockerServeClient.ts, lines 76 to 78):
it unconditionally throws NotSupportedError. -/
def inspectContainer (_ref : String) : ServeCall DockerContainerInspectionRec :=
  .error mkNotSupportedError

/-- Embedding of DockerServeClient.info: throws NotSupportedError. -/
def info : ServeCall Unit :=
  .error mkNotSupportedError

/-- Embedding of DockerServeClient.pruneContainers: throws
NotSupportedError. -/
def pruneContainers : ServeCall PruneResult :=
  .error mkNotSupportedError

/-- Embedding of DockerServeClient.getImages: throws NotSupportedError. -/
def getImages : ServeCall (List String) :=
  .error mkNotSupportedError

end DockerServeClient

/-! ## Context manager (src/src/docker/ContextHandler.ts, class
DockerContextManager) -/

/-- Context record, from the DockerContext interface of
src/unnamed/part_003 used by ContextHandler.ts. -/
structure DockerContext where
  Name : String
  Description : String
  DockerEndpoint : String
  Current : Bool
  deriving DecidableEq, Repr

/-- Faults a context enumeration can end in. -/
inductive CtxFault where
  /-- Any line of the context listing output failed JSON.parse. -/
  | parseFault
  /-- The subprocess running the context listing failed or timed out. -/
  | execFault
  deriving DecidableEq, Repr

/-- Environment a context load runs against: the docker.host workspace
setting, the DOCKER_HOST environment variable (none models a falsy value in
JavaScript), the number of entries inside the contexts meta folder (a
missing folder counts as zero), and the outcome of running the context
listing subprocess, as one JSON parse result per output line (none for a
malformed line). -/
structure ContextEnv where
  configHost : Option String
  envHost : Option String
  metaFolderEntries : Nat
  lsResult : Except CtxFault (List (Option DockerContext))
  deriving DecidableEq, Repr

/-- Embedding of the line loop of loadContexts: each line is parsed in
order and pushed; a malformed line throws, failing the whole call with a
parse fault. -/
def parseLines : List (Option DockerContext) → Except CtxFault (List DockerContext)
  | [] => .ok []
  | some c :: rest => (parseLines rest).map (fun l => c :: l)
  | none :: _ => .error .parseFault

/-- First half of the DockerContextManager.loadContexts embedding
(src/src/docker/ContextHandler.ts, lines 249 to 260): the docker host is
taken from the workspace setting, then the DOCKER_HOST variable, then set
to a fixed value when the contexts meta folder is missing or empty. -/
def resolvedDockerHost (env : ContextEnv) : Option String :=
  match env.configHost with
  | some h => some h
  | none =>
    match env.envHost with
    | some h => some h
    | none => if env.metaFolderEntries = 0 then some "TODO" else none

/-- Embedding of DockerContextManager.loadContexts
(src/src/docker/ContextHandler.ts, lines 245 to 282): when a docker host
was determined, a single synthesized default context is returned; otherwise
the context listing subprocess output is parsed one JSON record per line
and returned as parsed, with no check on its Current flags. The surrounding
callWithTelemetryAndErrorHandling wrapper is an external library and is
modelled as transparent to faults. -/
def loadContexts (env : ContextEnv) : Except CtxFault (List DockerContext) :=
  match resolvedDockerHost env with
  | some h =>
    .ok [{ Name := "default"
           Description := "Current DOCKER_HOST based configuration"
           DockerEndpoint := h
           Current := true }]
  | none =>
    match env.lsResult with
    | .error e => .error e
    | .ok lines => parseLines lines

/-- Backend family of an installed client instance: DockerodeApiClient is
the local family, DockerServeClient the remote (serverless) family. -/
inductive BackendFamily where
  | localEngine
  | remoteServe
  deriving DecidableEq, Repr

/-- An installed backend client instance: its family (which class it is an
instance of) plus an instance identity, so that being left unchanged versus
being replaced by a fresh instance of the same family is observable. -/
structure Backend where
  family : BackendFamily
  instId : Nat
  deriving DecidableEq, Repr

/-- Backend family selected by a docker endpoint, per the dispatch in
DockerContextManager.refresh: the endpoint string aci selects the remote
family, every other endpoint the local family. -/
def endpointFamily (endpoint : String) : BackendFamily :=
  if endpoint == "aci" then .remoteServe else .localEngine

/-- Embedding of the backend swap inside DockerContextManager.refresh
(src/src/docker/ContextHandler.ts, lines 206 to 218). Given the installed
client (none when no client is installed), the current docker endpoint and
the identity a freshly constructed instance would get, it returns the
client installed afterwards together with the list of clients disposed. An
instanceof test on an absent client is false, so nothing is swapped in. -/
def switchClient (client : Option Backend) (endpoint : String) (fresh : Nat) :
    Option Backend × List Backend :=
  if endpoint == "aci" then
    match client with
    | some c =>
      if c.family = .localEngine then (some ⟨.remoteServe, fresh⟩, [c])
      else (client, [])
    | none => (client, [])
  else
    match client with
    | some c =>
      if c.family = .remoteServe then (some ⟨.localEngine, fresh⟩, [c])
      else (client, [])
    | none => (client, [])

/-- State of the context manager: the memoized context list (the AsyncLazy
cache), the installed backend client, the clients disposed so far and the
change events fired so far.

Modelled from the spec: the AsyncLazy utility (src/utils/lazy) is not among
the sources, only its callers are; per the spec the context list is lazily
computed and memoized until invalidated, so the cache holds the last
successfully computed list and a failed computation leaves it empty. -/
structure ManagerState where
  cache : Option (List DockerContext)
  client : Option Backend
  disposed : List Backend
  fired : List DockerContext
  deriving DecidableEq, Repr

/-- Faults a refresh can end in. -/
inductive RefreshFault where
  /-- The underlying enumeration failed. -/
  | enumeration (e : CtxFault)
  /-- No context was marked current: contexts.find returned undefined and
  reading DockerEndpoint of it throws a TypeError. -/
  | noCurrentContext
  deriving DecidableEq, Repr

/-- Modelled from the spec: AsyncLazy.getValue returns the memoized value
when one is cached, otherwise runs the value factory, memoizing a
successful result; a failed factory run propagates the fault and caches
nothing. -/
def cacheGetValue (env : ContextEnv) (s : ManagerState) :
    Except CtxFault (List DockerContext) × ManagerState :=
  match s.cache with
  | some l => (.ok l, s)
  | none =>
    match loadContexts env with
    | .ok l => (.ok l, { s with cache := some l })
    | .error e => (.error e, s)

/-- Embedding of DockerContextManager.getContexts
(src/src/docker/ContextHandler.ts, lines 223 to 225): it returns the cached
value of the contexts cache. -/
def getContexts (env : ContextEnv) (s : ManagerState) :
    Except CtxFault (List DockerContext) × ManagerState :=
  cacheGetValue env s

/-- Embedding of DockerContextManager.refresh
(src/src/docker/ContextHandler.ts, lines 201 to 221): clear the contexts
cache, recompute it, find the current context, swap the installed backend
when the endpoint selects the other family, and fire the change event with
the current context. -/
def refresh (env : ContextEnv) (fresh : Nat) (s : ManagerState) :
    Except RefreshFault Unit × ManagerState :=
  let s1 : ManagerState := { s with cache := none }
  match cacheGetValue env s1 with
  | (.error e, s2) => (.error (.enumeration e), s2)
  | (.ok contexts, s2) =>
    match contexts.find? (fun c => c.Current) with
    | none => (.error .noCurrentContext, s2)
    | some currentContext =>
      let (client2, justDisposed) :=
        switchClient s2.client currentContext.DockerEndpoint fresh
      (.ok (), { s2 with
                  client := client2
                  disposed := s2.disposed ++ justDisposed
                  fired := s2.fired ++ [currentContext] })

/-! ## Per-call wrapper of the local engine client
(src/unnamed/part_004, DockerodeApiClient.callWithErrorHandling) -/

/-- Fixed per-call timeout, from src/unnamed/part_004 line 23:
20 s timeout for all calls. -/
def dockerodeCallTimeout : Nat := 20 * 1000

/-- Raw settlement of one arm of the race inside callWithErrorHandling. -/
inductive RawOutcome (α : Type) where
  /-- The underlying call resolved. -/
  | result (a : α)
  /-- The underlying call rejected with a native error carrying a parsed
  errorType and message. -/
  | nativeError (errorType message : String)
  /-- The timeout promise source fired. -/
  | timedOut
  /-- The context-changed cancellation promise source fired. -/
  | contextChanged
  /-- The external cancellation token fired. -/
  | cancelled
  deriving DecidableEq, Repr

/-- One call against the wrapper: when each racing arm settles, if ever.
Modelled from the spec: TimeoutPromiseSource and CancellationPromiseSource
(src/utils/promiseUtils) are not among the sources, only their callers are;
per the spec the timeout source always rejects at its fixed delay, the
context-changed and token sources reject when fired, and the underlying
call settles with its own result or native error, if ever. Times are
abstract instants on the cooperative scheduler. -/
structure CallRace (α : Type) where
  /-- Settlement instant and value of the underlying call, none when it
  never settles. -/
  callbackArm : Option (Nat × Except (String × String) α)
  /-- Instant the context-changed cancellation fires, if ever. -/
  ctxChangedArm : Option Nat
  /-- Instant the external cancellation token fires, none when no token was
  passed or it never fires. -/
  tokenArm : Option Nat
  /-- Delay after which the timeout promise source rejects. -/
  timeoutDelay : Nat
  deriving DecidableEq, Repr

/-- Arms of the race in the order they are passed to Promise.race in
callWithErrorHandling: timeout, context changed, the call itself, then the
optional token. The timeout arm always settles. -/
def armList {α : Type} (r : CallRace α) : List (Nat × RawOutcome α) :=
  (r.timeoutDelay, .timedOut)
    :: ((r.ctxChangedArm.map (fun t => (t, RawOutcome.contextChanged))).toList
      ++ (r.callbackArm.map (fun a =>
            (a.1, match a.2 with
                  | .ok v => RawOutcome.result v
                  | .error e => RawOutcome.nativeError e.1 e.2))).toList
      ++ (r.tokenArm.map (fun t => (t, RawOutcome.cancelled))).toList)

/-- Modelled from the spec: Promise.race settles with the first arm to
settle; an arm settling strictly earlier wins, and among arms settling at
the same instant the one listed first wins. -/
def raceWinner {α : Type} : List (Nat × RawOutcome α) → Option (Nat × RawOutcome α)
  | [] => none
  | x :: xs =>
    match raceWinner xs with
    | none => some x
    | some b => if b.1 < x.1 then some b else some x

/-- Outcome of the wrapped call after the catch block of
callWithErrorHandling ran. -/
inductive CallOutcome (α : Type) where
  | ok (a : α)
  | nativeError (errorType message : String)
  /-- Rejection of the timeout arm: the Timeout Fault. -/
  | timeoutFault
  | contextChangedFault
  | cancelledFault
  /-- Translation of an ENOENT class native error into the descriptive
  failed-to-connect fault. -/
  | failedToConnect (message : String)
  deriving DecidableEq, Repr

/-- Embedding of the catch block of callWithErrorHandling: an ENOENT class
native error is translated into the failed-to-connect fault, every other
rejection is rethrown as it is. -/
def handleRawOutcome {α : Type} : RawOutcome α → CallOutcome α
  | .result a => .ok a
  | .nativeError errorType message =>
    if errorType == "ENOENT" then
      .failedToConnect
        ("Failed to connect. Is Docker installed and running? Error: "
          ++ message)
    else .nativeError errorType message
  | .timedOut => .timeoutFault
  | .contextChanged => .contextChangedFault
  | .cancelled => .cancelledFault

/-- Observable result of one wrapped call: its outcome, the instant it
settled, whether the finally block disposed the timeout promise source and
its onTimeout registration, and whether reporting the failure as a bug was
suppressed. -/
structure CallFinal (α : Type) where
  outcome : CallOutcome α
  settleTime : Nat
  tpsDisposed : Bool
  evtDisposed : Bool
  suppressReportIssue : Bool
  deriving DecidableEq, Repr

/-- Embedding of DockerodeApiClient.callWithErrorHandling
(src/unnamed/part_004, lines 252 to 288): race the call against the timeout
source, the context-changed source and the optional token, translate the
losing rejection, and in the finally block dispose the onTimeout
registration and the timeout promise source whichever arm won. The race
always settles because the timeout arm always does. -/
def callWithErrorHandling {α : Type} (r : CallRace α) : CallFinal α :=
  let w := (raceWinner (armList r)).getD (r.timeoutDelay, .timedOut)
  let outcome := handleRawOutcome w.2
  { outcome := outcome
    settleTime := w.1
    tpsDisposed := true
    evtDisposed := true
    suppressReportIssue :=
      match outcome with
      | .ok _ => false
      | _ => true }

/-! ## Theorems -/

lemma stripLeadingSep_of_slash (n : String) (rest : List Char)
    (h : n.data = '/' :: rest) : stripLeadingSep n = String.mk rest := by
  simp [stripLeadingSep, h]

lemma jsSubstrFrom1_of_slash (n : String) (rest : List Char)
    (h : n.data = '/' :: rest) : jsSubstrFrom1 n = String.mk rest := by
  simp [jsSubstrFrom1, h]

/-- Claim C6: for every container whose native name-alias list is non-empty
and whose aliases each start with the path separator, the canonical display
name computed by getContainerName is exactly the spec description (the first
alias, after stripping its leading separator, containing no separator
inside it, falling back to the first alias), and on the alias list
consisting of /web_1 and /myapp_web_1 the canonical name is web_1. -/
theorem c6_name_canonicalization :
    (∀ names : List String, names ≠ [] →
      (∀ n ∈ names, n.data.head? = some '/') →
      getContainerName names = specCanonicalName names)
    ∧ getContainerName ["/web_1", "/myapp_web_1"] = "web_1"
    ∧ specCanonicalName ["/web_1", "/myapp_web_1"] = "web_1" := by
  refine ⟨fun names _ hsep => ?_, by decide, by decide⟩
  have hmap : names.map jsSubstrFrom1 = names.map stripLeadingSep := by
    refine List.map_congr_left (fun n hn => ?_)
    have hh := hsep n hn
    cases hd : n.data with
    | nil => rw [hd] at hh; simp at hh
    | cons c rest =>
      rw [hd] at hh
      simp only [List.head?] at hh
      cases hh
      rw [jsSubstrFrom1_of_slash n rest hd, stripLeadingSep_of_slash n rest hd]
  unfold getContainerName specCanonicalName
  rw [hmap]

/-- Claim C6 witness: the refinement applied to the concrete alias list of
the claim. -/
theorem c6_name_canonicalization_witness :
    getContainerName ["/web_1", "/myapp_web_1"]
      = specCanonicalName ["/web_1", "/myapp_web_1"] :=
  c6_name_canonicalization.1 ["/web_1", "/myapp_web_1"] (by decide) (by decide)

/-- Claim C7: every created timestamp surfaced by the local engine client
translations is in epoch milliseconds: container records scale the epoch
seconds the engine reports by 1000, network records take the JavaScript
Date value of the ISO string the engine reports, and at the two concrete
inputs of the claim both normalize to 1700000000000. -/
theorem c7_timestamp_normalization :
    (∀ ci : ContainerInfo, (translateContainer ci).CreatedTime = ci.Created * 1000)
    ∧ (∀ ni : NetworkInfo, (translateNetwork ni).CreatedTime = jsDateValueOf ni.Created)
    ∧ (translateContainer
        ⟨"cid", ["/web_1"], "img", "imgid", 1700000000, "running", "Up", []⟩).CreatedTime
        = 1700000000000
    ∧ (translateNetwork ⟨"nid", "bridge", "2023-11-14T22:13:20.000Z"⟩).CreatedTime
        = 1700000000000 := by
  refine ⟨fun _ => rfl, fun _ => rfl, by decide, by decide⟩

lemma getComposeProjectName_mem (labels : List (String × String)) (v : String)
    (hmem : (composeProjectKey, v) ∈ labels)
    (hnd : (labels.map Prod.fst).Nodup) :
    getComposeProjectName labels = v := by
  induction labels with
  | nil => simp at hmem
  | cons p t ih =>
    simp only [List.map_cons, List.nodup_cons] at hnd
    rcases List.mem_cons.mp hmem with hp | ht
    · subst hp
      simp [getComposeProjectName, List.find?]
    · have hne : p.1 ≠ composeProjectKey := by
        intro he
        exact hnd.1 (he ▸ List.mem_map_of_mem Prod.fst ht)
      have : (p.1 == composeProjectKey) = false := by
        simpa using hne
      simp only [getComposeProjectName, List.find?, this]
      exact ih ht hnd.2

lemma getComposeProjectName_not_mem (labels : List (String × String))
    (h : composeProjectKey ∉ labels.map Prod.fst) :
    getComposeProjectName labels = NonComposeGroupName := by
  induction labels with
  | nil => rfl
  | cons p t ih =>
    simp only [List.map_cons, List.mem_cons, not_or] at h
    have : (p.1 == composeProjectKey) = false := by
      simpa using (fun he => h.1 he.symm)
    simp only [getComposeProjectName, List.find?, this]
    exact ih h.2

/-- Claim C8: a container whose label set contains the compose project key
has that label value as its composeProjectName (label keys of a JavaScript
object are unique), and a container without that key gets the sentinel
Other Containers group name; in particular a label set mapping the key to
myapp groups under myapp. -/
theorem c8_compose_grouping :
    (∀ (labels : List (String × String)) (v : String),
      (composeProjectKey, v) ∈ labels → (labels.map Prod.fst).Nodup →
      getComposeProjectName labels = v)
    ∧ (∀ labels : List (String × String),
      composeProjectKey ∉ labels.map Prod.fst →
      getComposeProjectName labels = NonComposeGroupName)
    ∧ getComposeProjectName [(composeProjectKey, "myapp")] = "myapp"
    ∧ getComposeProjectName [("some.other.label", "x")] = NonComposeGroupName :=
  ⟨getComposeProjectName_mem, getComposeProjectName_not_mem, by decide, by decide⟩

/-- Claim C8 witness: both universal parts applied at concrete label
sets. -/
theorem c8_compose_grouping_witness :
    getComposeProjectName [(composeProjectKey, "myapp"), ("a", "b")] = "myapp"
    ∧ getComposeProjectName [("a", "b")] = NonComposeGroupName :=
  ⟨c8_compose_grouping.1 [(composeProjectKey, "myapp"), ("a", "b")] "myapp"
      (by decide) (by decide),
    c8_compose_grouping.2.1 [("a", "b")] (by decide)⟩

/-- Claim C10: the network prune translation of the local client reports
zero spaceFreed whatever the engine returned, with objectsRemoved the
number of deleted networks, while the container, image and volume prune
translations take spaceFreed from the reclaimed-space figure of the
engine. -/
theorem c10_prune_networks_space_freed :
    (∀ r : PruneNetworksResponse,
      (pruneNetworksResult r).spaceFreed = 0
      ∧ (pruneNetworksResult r).objectsRemoved = r.NetworksDeleted.length)
    ∧ (∀ r : PruneContainersResponse,
      (pruneContainersResult r).spaceFreed = r.SpaceReclaimed
      ∧ (pruneContainersResult r).objectsRemoved = r.ContainersDeleted.length)
    ∧ (∀ r : PruneImagesResponse,
      (pruneImagesResult r).spaceFreed = r.SpaceReclaimed)
    ∧ (∀ r : PruneVolumesResponse,
      (pruneVolumesResult r).spaceFreed = r.SpaceReclaimed) :=
  ⟨fun _ => ⟨rfl, rfl⟩, fun _ => ⟨rfl, rfl⟩, fun _ => rfl, fun _ => rfl⟩

/-- Claim C2 counterexample: inspectContainer on the remote backend does
throw the typed fault, but no thrown fault value has a message carrying the
attempted operation name inspectContainer, because the NotSupportedError
constructor takes no data and produces a fixed localized message. This
refutes the part of the claim that says the fault carries the name of the
attempted operation. -/
theorem c2_counterexample_fault_lacks_op_name :
    DockerServeClient.inspectContainer "c1" = Except.error mkNotSupportedError
    ∧ ¬ ∃ e : NotSupportedError,
        DockerServeClient.inspectContainer "c1" = Except.error e
        ∧ mentionsText e.message "inspectContainer" = true := by
  refine ⟨rfl, ?_⟩
  rintro ⟨e, he, hm⟩
  have h2 : mkNotSupportedError = e := by
    simpa [DockerServeClient.inspectContainer] using he
  rw [← h2] at hm
  revert hm
  decide

/-- Claim C2 amended: every operation unsupported by the remote
(serverless) backend, inspectContainer among them, throws the typed
NotSupportedError (never silently swallowed, and catchable by its type),
but the fault carries a fixed message that names neither the attempted
operation nor the rejecting backend family. -/
theorem c2_amended_typed_fault_thrown :
    (∀ ref : String,
      DockerServeClient.inspectContainer ref = Except.error mkNotSupportedError)
    ∧ DockerServeClient.info = Except.error mkNotSupportedError
    ∧ DockerServeClient.pruneContainers = Except.error mkNotSupportedError
    ∧ DockerServeClient.getImages = Except.error mkNotSupportedError
    ∧ mkNotSupportedError.errorType = "NotSupportedError"
    ∧ mentionsText mkNotSupportedError.message "inspectContainer" = false
    ∧ mentionsText mkNotSupportedError.message "DockerServeClient" = false := by
  refine ⟨fun _ => rfl, rfl, rfl, rfl, rfl, by decide, by decide⟩

lemma switchClient_same_family (c : Backend) (endpoint : String) (fresh : Nat)
    (h : endpointFamily endpoint = c.family) :
    switchClient (some c) endpoint fresh = (some c, []) := by
  by_cases he : endpoint = "aci"
  · subst he
    simp only [endpointFamily, beq_self_eq_true, if_true] at h
    simp [switchClient, ← h]
  · have hb : (endpoint == "aci") = false := by simpa using he
    simp only [endpointFamily, hb, Bool.false_eq_true, if_false] at h
    simp [switchClient, hb, ← h]

lemma switchClient_diff_family (c : Backend) (endpoint : String) (fresh : Nat)
    (h : endpointFamily endpoint ≠ c.family) :
    switchClient (some c) endpoint fresh
      = (some ⟨endpointFamily endpoint, fresh⟩, [c]) := by
  by_cases he : endpoint = "aci"
  · subst he
    simp only [endpointFamily, beq_self_eq_true, if_true] at h ⊢
    cases hf : c.family with
    | localEngine => simp [switchClient, hf]
    | remoteServe => exact absurd hf.symm h
  · have hb : (endpoint == "aci") = false := by simpa using he
    simp only [endpointFamily, hb, Bool.false_eq_true, if_false] at h ⊢
    cases hf : c.family with
    | remoteServe => simp [switchClient, hb, hf]
    | localEngine => exact absurd hf.symm h

/-- Claim C5: on a refresh whose enumeration succeeds and finds a current
context, if the endpoint of that context selects the same backend family as
the installed client, the installed client is left in place and nothing new
is disposed; the dispose-old-install-new swap happens exactly when the
family differs. -/
theorem c5_swap_only_on_family_change :
    ∀ (env : ContextEnv) (s : ManagerState) (fresh : Nat)
      (l : List DockerContext) (cur : DockerContext) (c : Backend),
      loadContexts env = .ok l →
      l.find? (fun x => x.Current) = some cur →
      s.client = some c →
      ((endpointFamily cur.DockerEndpoint = c.family →
        (refresh env fresh s).2.client = some c
        ∧ (refresh env fresh s).2.disposed = s.disposed)
      ∧ (endpointFamily cur.DockerEndpoint ≠ c.family →
        (refresh env fresh s).2.client
            = some ⟨endpointFamily cur.DockerEndpoint, fresh⟩
        ∧ (refresh env fresh s).2.disposed = s.disposed ++ [c])) := by
  intro env s fresh l cur c hl hcur hc
  have hstep : refresh env fresh s
      = (.ok (), { cache := some l
                   client := (switchClient (some c) cur.DockerEndpoint fresh).1
                   disposed := s.disposed
                     ++ (switchClient (some c) cur.DockerEndpoint fresh).2
                   fired := s.fired ++ [cur] }) := by
    simp [refresh, cacheGetValue, hl, hcur, hc]
  constructor
  · intro hfam
    rw [hstep]
    simp [switchClient_same_family c cur.DockerEndpoint fresh hfam]
  · intro hfam
    rw [hstep]
    simp [switchClient_diff_family c cur.DockerEndpoint fresh hfam]

/-- Claim C5 witness: a refresh that keeps the current local endpoint
leaves the installed local client untouched, and one that switches to the
serverless endpoint disposes it and installs a remote client. -/
theorem c5_swap_only_on_family_change_witness :
    ((refresh ⟨some "unix:///var/run/docker.sock", none, 1, .error .execFault⟩ 7
        ⟨none, some ⟨.localEngine, 3⟩, [], []⟩).2.client = some ⟨.localEngine, 3⟩
      ∧ (refresh ⟨some "unix:///var/run/docker.sock", none, 1, .error .execFault⟩ 7
        ⟨none, some ⟨.localEngine, 3⟩, [], []⟩).2.disposed = [])
    ∧ ((refresh ⟨some "aci", none, 1, .error .execFault⟩ 7
        ⟨none, some ⟨.localEngine, 3⟩, [], []⟩).2.client = some ⟨.remoteServe, 7⟩
      ∧ (refresh ⟨some "aci", none, 1, .error .execFault⟩ 7
        ⟨none, some ⟨.localEngine, 3⟩, [], []⟩).2.disposed = [] ++ [⟨.localEngine, 3⟩]) :=
  ⟨(c5_swap_only_on_family_change
      ⟨some "unix:///var/run/docker.sock", none, 1, .error .execFault⟩
      ⟨none, some ⟨.localEngine, 3⟩, [], []⟩ 7 _ _ ⟨.localEngine, 3⟩
      rfl rfl rfl).1 (by decide),
    (c5_swap_only_on_family_change
      ⟨some "aci", none, 1, .error .execFault⟩
      ⟨none, some ⟨.localEngine, 3⟩, [], []⟩ 7 _ _ ⟨.localEngine, 3⟩
      rfl rfl rfl).2 (by decide)⟩

/-- Claim C1 counterexample: with no configured host, a non-empty contexts
meta folder, and a context listing whose two entries are both marked
current, getContexts returns the two-entry list as-is even though it does
not have exactly one current entry; the manager does not treat the
multiple-current case as an error state. -/
theorem c1_counterexample_two_current :
    (getContexts
      ⟨none, none, 1,
        .ok [some ⟨"a", "", "unix:///var/run/docker.sock", true⟩,
             some ⟨"b", "", "tcp://other:2375", true⟩]⟩
      ⟨none, none, [], []⟩).1
      = .ok [⟨"a", "", "unix:///var/run/docker.sock", true⟩,
             ⟨"b", "", "tcp://other:2375", true⟩]
    ∧ (([⟨"a", "", "unix:///var/run/docker.sock", true⟩,
         ⟨"b", "", "tcp://other:2375", true⟩] : List DockerContext).filter
          (fun c => c.Current)).length ≠ 1 := by
  exact ⟨rfl, by decide⟩

/-- Claim C1 amended: only the synthesized-default path guarantees exactly
one current entry; the enumeration path returns the parsed list unchecked,
so zero or multiple current entries are returned rather than treated as an
error, and only refresh fails in the zero-current case, because it
dereferences the missing current context. -/
theorem c1_amended_single_current_default_path_only :
    (∀ (env : ContextEnv) (h : String), resolvedDockerHost env = some h →
      ∃ c : DockerContext, loadContexts env = .ok [c] ∧ c.Current = true)
    ∧ (∀ (env : ContextEnv) (lines : List (Option DockerContext))
        (l : List DockerContext),
        resolvedDockerHost env = none → env.lsResult = .ok lines →
        parseLines lines = .ok l → loadContexts env = .ok l)
    ∧ (∀ (env : ContextEnv) (s : ManagerState) (fresh : Nat)
        (l : List DockerContext),
        loadContexts env = .ok l →
        l.find? (fun c => c.Current) = none →
        (refresh env fresh s).1 = .error .noCurrentContext) := by
  refine ⟨?_, ?_, ?_⟩
  · intro env h hh
    exact ⟨{ Name := "default"
             Description := "Current DOCKER_HOST based configuration"
             DockerEndpoint := h
             Current := true },
      by simp [loadContexts, hh], rfl⟩
  · intro env lines l h1 h2 h3
    simp [loadContexts, h1, h2, h3]
  · intro env s fresh l h1 h2
    simp [refresh, cacheGetValue, h1, h2]

/-- Claim C1 witness: the three parts of the amended claim applied at
concrete inputs (a configured host, a parsed two-entry listing, and a
listing with no current entry). -/
theorem c1_amended_witness :
    (∃ c : DockerContext,
      loadContexts ⟨some "tcp://h:2375", none, 5, .error .execFault⟩ = .ok [c]
      ∧ c.Current = true)
    ∧ loadContexts ⟨none, none, 2, .ok [some ⟨"a", "", "tcp://x", false⟩]⟩
      = .ok [⟨"a", "", "tcp://x", false⟩]
    ∧ (refresh ⟨none, none, 2, .ok [some ⟨"a", "", "tcp://x", false⟩]⟩ 0
        ⟨none, none, [], []⟩).1 = .error .noCurrentContext :=
  ⟨c1_amended_single_current_default_path_only.1
      ⟨some "tcp://h:2375", none, 5, .error .execFault⟩ "tcp://h:2375" rfl,
    c1_amended_single_current_default_path_only.2.1
      ⟨none, none, 2, .ok [some ⟨"a", "", "tcp://x", false⟩]⟩
      [some ⟨"a", "", "tcp://x", false⟩] [⟨"a", "", "tcp://x", false⟩]
      rfl rfl rfl,
    c1_amended_single_current_default_path_only.2.2
      ⟨none, none, 2, .ok [some ⟨"a", "", "tcp://x", false⟩]⟩
      ⟨none, none, [], []⟩ 0 [⟨"a", "", "tcp://x", false⟩] rfl rfl⟩

/-- Claim C3 counterexample: starting from a memoized one-entry context
list, a refresh whose enumeration fails leaves the manager without the old
list (refresh cleared the memo before enumerating), so the next getContexts
fails instead of returning the previously memoized list; the old list does
not remain the observed value until a successful refresh replaces it. -/
theorem c3_counterexample_failed_refresh_discards_memo :
    ((refresh ⟨none, none, 1, .error .parseFault⟩ 0
        ⟨some [⟨"default", "", "unix:///sock", true⟩], none, [], []⟩).1
      = .error (.enumeration .parseFault))
    ∧ (getContexts ⟨none, none, 1, .error .parseFault⟩
        (refresh ⟨none, none, 1, .error .parseFault⟩ 0
          ⟨some [⟨"default", "", "unix:///sock", true⟩], none, [], []⟩).2).1
      = .error .parseFault
    ∧ (getContexts ⟨none, none, 1, .error .parseFault⟩
        (refresh ⟨none, none, 1, .error .parseFault⟩ 0
          ⟨some [⟨"default", "", "unix:///sock", true⟩], none, [], []⟩).2).1
      ≠ .ok [⟨"default", "", "unix:///sock", true⟩] := by
  exact ⟨rfl, rfl, by decide⟩

/-- Claim C3 amended: a memoized list is returned without enumerating at
all; a getContexts whose own enumeration fails fails as a whole and leaves
the state unchanged; but refresh clears the memoized list before
enumerating, so a failed refresh leaves the cache empty rather than keeping
the old list. -/
theorem c3_amended_error_leaves_state_but_refresh_clears :
    (∀ (env : ContextEnv) (s : ManagerState) (l : List DockerContext),
      s.cache = some l → getContexts env s = (.ok l, s))
    ∧ (∀ (env : ContextEnv) (s : ManagerState) (e : CtxFault),
      s.cache = none → loadContexts env = .error e →
      getContexts env s = (.error e, s))
    ∧ (∀ (env : ContextEnv) (s : ManagerState) (fresh : Nat) (e : CtxFault),
      loadContexts env = .error e →
      (refresh env fresh s).1 = .error (.enumeration e)
      ∧ (refresh env fresh s).2 = { s with cache := none }) := by
  refine ⟨?_, ?_, ?_⟩
  · intro env s l h
    simp [getContexts, cacheGetValue, h]
  · intro env s e h1 h2
    simp [getContexts, cacheGetValue, h1, h2]
  · intro env s fresh e h
    constructor <;> simp [refresh, cacheGetValue, h]

/-- Claim C3 witness: the three parts of the amended claim applied at a
memoized state, an empty state with a failing enumeration, and a failed
refresh. -/
theorem c3_amended_witness :
    getContexts ⟨none, none, 1, .error .parseFault⟩
      ⟨some [⟨"d", "", "unix:///s", true⟩], none, [], []⟩
      = (.ok [⟨"d", "", "unix:///s", true⟩],
          ⟨some [⟨"d", "", "unix:///s", true⟩], none, [], []⟩)
    ∧ getContexts ⟨none, none, 1, .error .parseFault⟩ ⟨none, none, [], []⟩
      = (.error .parseFault, ⟨none, none, [], []⟩)
    ∧ (refresh ⟨none, none, 1, .error .parseFault⟩ 4
        ⟨some [⟨"d", "", "unix:///s", true⟩], none, [], []⟩).1
      = .error (.enumeration .parseFault) :=
  ⟨c3_amended_error_leaves_state_but_refresh_clears.1
      ⟨none, none, 1, .error .parseFault⟩
      ⟨some [⟨"d", "", "unix:///s", true⟩], none, [], []⟩
      [⟨"d", "", "unix:///s", true⟩] rfl,
    c3_amended_error_leaves_state_but_refresh_clears.2.1
      ⟨none, none, 1, .error .parseFault⟩ ⟨none, none, [], []⟩
      .parseFault rfl rfl,
    (c3_amended_error_leaves_state_but_refresh_clears.2.2
      ⟨none, none, 1, .error .parseFault⟩
      ⟨some [⟨"d", "", "unix:///s", true⟩], none, [], []⟩ 4
      .parseFault rfl).1⟩

/-- Claim C9: two consecutive getContexts calls with no intervening refresh
and no file change return the identical list (the memoized value is reused,
not recomputed), whatever the environment of the second call would have
yielded. -/
theorem c9_idempotent_get_contexts :
    ∀ (env1 env2 : ContextEnv) (s : ManagerState) (l : List DockerContext),
      (getContexts env1 s).1 = .ok l →
      getContexts env2 (getContexts env1 s).2 = (.ok l, (getContexts env1 s).2) := by
  intro env1 env2 s l h
  cases hc : s.cache with
  | some L =>
    simp only [getContexts, cacheGetValue, hc] at h ⊢
    injection h with h
    subst h
    simp [hc]
  | none =>
    cases hl : loadContexts env1 with
    | error e =>
      simp [getContexts, cacheGetValue, hc, hl] at h
    | ok L =>
      simp only [getContexts, cacheGetValue, hc, hl] at h ⊢
      injection h with h
      subst h
      simp

/-- Claim C9 witness: the idempotence applied to a first call that loads a
synthesized default context. -/
theorem c9_idempotent_witness :
    getContexts ⟨some "tcp://h", none, 0, .error .execFault⟩
      (getContexts ⟨some "tcp://h", none, 0, .error .execFault⟩
        ⟨none, none, [], []⟩).2
      = (.ok [⟨"default", "Current DOCKER_HOST based configuration",
              "tcp://h", true⟩],
          (getContexts ⟨some "tcp://h", none, 0, .error .execFault⟩
            ⟨none, none, [], []⟩).2) :=
  c9_idempotent_get_contexts
    ⟨some "tcp://h", none, 0, .error .execFault⟩
    ⟨some "tcp://h", none, 0, .error .execFault⟩
    ⟨none, none, [], []⟩
    [⟨"default", "Current DOCKER_HOST based configuration", "tcp://h", true⟩]
    rfl

/-- Claim C4: a wrapped engine call whose underlying operation never
settles, with no context change and no external token, rejects with the
Timeout Fault at the fixed 20 second bound (hence at or after it); and
every wrapped call, however its race settles, has its timeout promise
source and onTimeout registration disposed by the finally block, so no
pending timer is left behind. -/
theorem c4_timeout_bound_and_timer_disposal :
    (∀ r : CallRace Unit,
      r.callbackArm = none → r.ctxChangedArm = none → r.tokenArm = none →
      r.timeoutDelay = dockerodeCallTimeout →
      (callWithErrorHandling r).outcome = CallOutcome.timeoutFault
      ∧ dockerodeCallTimeout ≤ (callWithErrorHandling r).settleTime)
    ∧ (∀ r : CallRace Unit,
      (callWithErrorHandling r).tpsDisposed = true
      ∧ (callWithErrorHandling r).evtDisposed = true) := by
  constructor
  · intro r h1 h2 h3 h4
    have hr : r = ⟨none, none, none, dockerodeCallTimeout⟩ := by
      obtain ⟨cb, ctx, tok, td⟩ := r
      simp_all
    rw [hr]
    decide
  · intro r
    exact ⟨rfl, rfl⟩

/-- Claim C4 witness: the timeout bound applied to the concrete
never-settling call. -/
theorem c4_timeout_bound_witness :
    (callWithErrorHandling (α := Unit)
      ⟨none, none, none, dockerodeCallTimeout⟩).outcome
      = CallOutcome.timeoutFault
    ∧ dockerodeCallTimeout ≤ (callWithErrorHandling (α := Unit)
      ⟨none, none, none, dockerodeCallTimeout⟩).settleTime :=
  c4_timeout_bound_and_timer_disposal.1
    ⟨none, none, none, dockerodeCallTimeout⟩ rfl rfl rfl rfl

end VsDocker
